import Mathlib

/-!
Shallow embedding of the dod-playground simulation core
(src/source/game.cpp, src/source/game.h).

Modelling conventions:
* `float` arithmetic is embedded as exact rational arithmetic (`ℚ`);
  the literals `1.3f` and `1.1f` are taken at their intended values
  `13/10` and `11/10`.
* the C++ cast `(unsigned int)` applied to a floating value truncates
  toward zero; for a negative argument the C++ standard leaves the cast
  undefined, and we model the behavior of the x86-64 targets the source
  is written for (truncate to a signed integer, reinterpret the low 32
  bits), i.e. reduction of the truncated value modulo 2^32.
* the struct-of-arrays component store is embedded as total functions
  from entity id to component; the systems only touch the id ranges the
  C++ loops iterate over.  The `static` grid backing store that the C++
  code reuses across frames is embedded as a freshly built bucket map:
  the C++ code resets every occupancy counter each call and reads only
  below the counter, so stale storage contents are unobservable.
* the regular-entity count and the hazard count are hard constants
  (`kObjectCount`, `kAvoidCount`) in the C++ source; every system is
  embedded with the two counts `R` and `H` as parameters and the claims
  about the shipped program instantiate them at the source constants.
-/

namespace DodPlayground

/-- Component with 2D position, from `PositionComponent` in game.cpp. -/
structure PositionComponent where
  x : ℚ
  y : ℚ
deriving DecidableEq

/-- Component with color, sprite-atlas index, from `SpriteComponent` in game.cpp. -/
structure SpriteComponent where
  colorR : ℕ
  colorG : ℕ
  colorB : ℕ
  spriteIndex : ℕ
deriving DecidableEq

/-- Component with constant velocity, from `MoveComponent` in game.cpp. -/
structure MoveComponent where
  velx : ℚ
  vely : ℚ
deriving DecidableEq

/-- World bounds rectangle, from `WorldBoundsComponent` in game.cpp (int fields). -/
structure WorldBoundsComponent where
  xMin : ℤ
  xMax : ℤ
  yMin : ℤ
  yMax : ℤ

/-- Constant `kObjectCount = 1000000` (game.cpp line 7). -/
def kObjectCount : ℕ := 1000000

/-- Constant `kAvoidCount = 20` (game.cpp line 8). -/
def kAvoidCount : ℕ := 20

namespace Entities

/-- Constant `Entities::s_WorldBounds = { -128, 128, -64, 64 }` (game.cpp line 71). -/
def s_WorldBounds : WorldBoundsComponent := ⟨-128, 128, -64, 64⟩

end Entities

/-- State of the component store `s_Objects`: the three parallel arrays
(as total functions of entity id) plus the common array size set by
`Entities::reserve`. -/
structure GameState where
  positions : ℕ → PositionComponent
  sprites : ℕ → SpriteComponent
  moves : ℕ → MoveComponent
  size : ℕ

/-- Embedding of `Entities::reserve(n)`: resizes all three arrays to `n`.
Only the size is tracked here; the slot contents written by the startup
code are arbitrary from the per-frame point of view. -/
def Entities.reserve (n : ℕ) (s : GameState) : GameState := { s with size := n }

/-- One axis of the bounce logic of `MoveSystem::UpdateSystem`
(game.cpp lines 125-144): if the integrated coordinate is below `lo`,
negate the velocity and clamp to `lo`; then, on the updated coordinate,
if above `hi`, negate the velocity and clamp to `hi`.  Returns
(velocity, coordinate). -/
def reflectAxis (lo hi : ℚ) (v p : ℚ) : ℚ × ℚ :=
  let v1 := if p < lo then -v else v
  let p1 := if p < lo then lo else p
  let v2 := if p1 > hi then -v1 else v1
  let p2 := if p1 > hi then hi else p1
  (v2, p2)

/-- Per-entity body of `MoveSystem::UpdateSystem` (game.cpp lines 117-144):
integrate position by velocity and delta time, then reflect off the four
world-bound faces, x and y handled independently. -/
def moveStep (deltaTime : ℚ) (pos : PositionComponent) (move : MoveComponent) :
    PositionComponent × MoveComponent :=
  let px := pos.x + move.velx * deltaTime
  let py := pos.y + move.vely * deltaTime
  let rx := reflectAxis (Entities.s_WorldBounds.xMin : ℚ) (Entities.s_WorldBounds.xMax : ℚ)
    move.velx px
  let ry := reflectAxis (Entities.s_WorldBounds.yMin : ℚ) (Entities.s_WorldBounds.yMax : ℚ)
    move.vely py
  (⟨rx.2, ry.2⟩, ⟨rx.1, ry.1⟩)

/-- Embedding of `MoveSystem::UpdateSystem` (game.cpp lines 108-146):
applies `moveStep` to every entity id in `[0, R + H)`.  The loop
iterations are independent, so the loop is embedded pointwise. -/
def MoveSystem.UpdateSystem (R H : ℕ) (_time deltaTime : ℚ) (s : GameState) : GameState :=
  { s with
    positions := fun io =>
      if io < R + H then (moveStep deltaTime (s.positions io) (s.moves io)).1
      else s.positions io
    moves := fun io =>
      if io < R + H then (moveStep deltaTime (s.positions io) (s.moves io)).2
      else s.moves io }

/-- Constant `kAvoidDistance = 1.3f` (game.cpp line 158). -/
def kAvoidDistance : ℚ := 13 / 10

/-- Constant `kCellCount = 64` (game.cpp line 167). -/
def kCellCount : ℕ := 64

/-- Constant `kShiftAmount = 6` (game.cpp line 168). -/
def kShiftAmount : ℕ := 6

/-- Constant `kGridCellSize[0]` (game.cpp line 169): x-axis cell size,
(128 - (-128)) / 64 = 4, computed in integer arithmetic. -/
def kGridCellSize0 : ℕ :=
  ((Entities.s_WorldBounds.xMax - Entities.s_WorldBounds.xMin) / (kCellCount : ℤ)).toNat

/-- Constant `kGridCellSize[1]` (game.cpp line 169): y-axis cell size,
(64 - (-64)) / 64 = 2, computed in integer arithmetic. -/
def kGridCellSize1 : ℕ :=
  ((Entities.s_WorldBounds.yMax - Entities.s_WorldBounds.yMin) / (kCellCount : ℤ)).toNat

/-- Truncation toward zero of a rational, the rounding used by a C++
float-to-integer conversion. -/
def ratTrunc (q : ℚ) : ℤ := if q < 0 then -⌊-q⌋ else ⌊q⌋

/-- The C++ cast `(unsigned int)` applied to a floating value: truncate
toward zero and reduce modulo 2^32 (two's-complement reinterpretation;
see the modelling note at the top of this file). -/
def cppToUInt (q : ℚ) : ℕ := ((ratTrunc q) % (2 ^ 32 : ℤ)).toNat

/-- Boundary-wrap correction `n - ((n & kCellCount) >> kShiftAmount)`
applied to grid cell coordinates (game.cpp lines 179-184, 203, 206). -/
def wrapCell (n : ℕ) : ℕ := n - ((n &&& kCellCount) >>> kShiftAmount)

/-- Grid cell hash `x << kShiftAmount | y` (game.cpp lines 190, 208). -/
def cellHash (x y : ℕ) : ℕ := (x <<< kShiftAmount) ||| y

/-- Index `topRight[0]` of a hazard's footprint (game.cpp lines 178-179). -/
def hazardTopRight0 (p : PositionComponent) : ℕ :=
  wrapCell (cppToUInt (p.x + kAvoidDistance - (Entities.s_WorldBounds.xMin : ℚ)) / kGridCellSize0)

/-- Index `topRight[1]` of a hazard's footprint (game.cpp lines 178, 180). -/
def hazardTopRight1 (p : PositionComponent) : ℕ :=
  wrapCell (cppToUInt (p.y + kAvoidDistance - (Entities.s_WorldBounds.yMin : ℚ)) / kGridCellSize1)

/-- Index `bottomLeft[0]` of a hazard's footprint (game.cpp lines 182-183). -/
def hazardBottomLeft0 (p : PositionComponent) : ℕ :=
  wrapCell (cppToUInt (p.x - kAvoidDistance - (Entities.s_WorldBounds.xMin : ℚ)) / kGridCellSize0)

/-- Index `bottomLeft[1]` of a hazard's footprint (game.cpp lines 182, 184). -/
def hazardBottomLeft1 (p : PositionComponent) : ℕ :=
  wrapCell (cppToUInt (p.y - kAvoidDistance - (Entities.s_WorldBounds.yMin : ℚ)) / kGridCellSize1)

/-- Cell hashes enumerated by the double loop of the grid build for one
hazard (game.cpp lines 186-194): y from `bottomLeft[1]` to `topRight[1]`
inclusive (outer), x from `bottomLeft[0]` to `topRight[0]` inclusive
(inner); an empty list when a lower bound exceeds the matching upper
bound, exactly as the unsigned C++ loop conditions behave then. -/
def hazardCells (p : PositionComponent) : List ℕ :=
  (List.range' (hazardBottomLeft1 p) (hazardTopRight1 p + 1 - hazardBottomLeft1 p)).flatMap
    fun y =>
      (List.range' (hazardBottomLeft0 p) (hazardTopRight0 p + 1 - hazardBottomLeft0 p)).map
        fun x => cellHash x y

/-- Append of entity id `ia` into the bucket of cell `cell`
(game.cpp lines 191-192). -/
def gridInsert (grid : ℕ → List ℕ) (ia : ℕ) (cell : ℕ) : ℕ → List ℕ :=
  fun h => if h = cell then grid h ++ [ia] else grid h

/-- Insertion of one hazard into every cell of its footprint
(game.cpp lines 186-194). -/
def insertHazard (grid : ℕ → List ℕ) (ia : ℕ) (p : PositionComponent) : ℕ → List ℕ :=
  (hazardCells p).foldl (fun g c => gridInsert g ia c) grid

/-- Grid build pass of `AvoidanceSystem::UpdateSystem`
(game.cpp lines 171-195): counters reset, then every hazard id
`R + k`, `k < H`, is inserted in increasing id order.  A bucket's list
length is the occupancy counter `activeAvoidCount`. -/
def buildGrid (R H : ℕ) (positions : ℕ → PositionComponent) : ℕ → List ℕ :=
  (List.range H).foldl (fun g k => insertHazard g (R + k) (positions (R + k))) fun _ => []

/-- Query-side cell hash of a regular entity (game.cpp lines 202-208).
The source computes the wrapped x cell coordinate into `x`, then the
raw y cell coordinate into `y`, then assigns the wrap correction of `y`
into `x` again (line 206 writes `x = y - ...`), and finally hashes
`x << kShiftAmount | y`.  The first binding of `x` is therefore dead,
exactly as in the source. -/
def queryHash (p : PositionComponent) : ℕ :=
  let x := wrapCell (cppToUInt (p.x - (Entities.s_WorldBounds.xMin : ℚ)) / kGridCellSize0)
  let y := cppToUInt (p.y - (Entities.s_WorldBounds.yMin : ℚ)) / kGridCellSize1
  let x := y - ((y &&& kCellCount) >>> kShiftAmount)
  cellHash x y

/-- Reaction test `(dx*dx + dy*dy) - kAvoidDistance*kAvoidDistance < 0.0f`
(game.cpp line 219). -/
def avoidReactCond (dx dy : ℚ) : Bool :=
  dx * dx + dy * dy - kAvoidDistance * kAvoidDistance < 0

/-- Body of the bucket scan for one hazard against one regular entity
(game.cpp lines 213-237).  The accumulator carries the regular entity's
(position, movement, sprite), which the reaction mutates in place in the
source: flip both velocity components, advance the position by the new
velocity times `deltaTime * 1.1f`, copy the hazard's color channels. -/
def avoidStep (deltaTime : ℚ) (avoidPos : PositionComponent) (avoidSprite : SpriteComponent)
    (acc : PositionComponent × MoveComponent × SpriteComponent) :
    PositionComponent × MoveComponent × SpriteComponent :=
  let dx := avoidPos.x - acc.1.x
  let dy := avoidPos.y - acc.1.y
  if avoidReactCond dx dy then
    let move : MoveComponent := ⟨-acc.2.1.velx, -acc.2.1.vely⟩
    let pos : PositionComponent :=
      ⟨acc.1.x + move.velx * deltaTime * (11 / 10),
       acc.1.y + move.vely * deltaTime * (11 / 10)⟩
    (pos, move,
      { acc.2.2 with
        colorR := avoidSprite.colorR
        colorG := avoidSprite.colorG
        colorB := avoidSprite.colorB })
  else acc

/-- Query pass of `AvoidanceSystem::UpdateSystem` for one regular entity
(game.cpp lines 198-238): the cell hash is computed once from the
entity's position, then the bucket of that single cell is scanned in
order. -/
def avoidEntity (deltaTime : ℚ) (s : GameState) (grid : ℕ → List ℕ) (io : ℕ) :
    PositionComponent × MoveComponent × SpriteComponent :=
  (grid (queryHash (s.positions io))).foldl
    (fun acc ia => avoidStep deltaTime (s.positions ia) (s.sprites ia) acc)
    (s.positions io, s.moves io, s.sprites io)

/-- Embedding of `AvoidanceSystem::UpdateSystem` (game.cpp lines 160-240):
rebuild the grid from the hazard ids `[R, R + H)`, then run the bucket
scan for every regular entity id in `[0, R)`.  Hazard ids are never
written by the query pass and regular entity `io` writes only its own
components, so the loop is embedded pointwise over `io` against the
post-motion state. -/
def AvoidanceSystem.UpdateSystem (R H : ℕ) (_time deltaTime : ℚ) (s : GameState) : GameState :=
  let grid := buildGrid R H s.positions
  { s with
    positions := fun io =>
      if io < R then (avoidEntity deltaTime s grid io).1 else s.positions io
    moves := fun io =>
      if io < R then (avoidEntity deltaTime s grid io).2.1 else s.moves io
    sprites := fun io =>
      if io < R then (avoidEntity deltaTime s grid io).2.2 else s.sprites io }

/-- Result of one `game_update` call: the new store state, the two
output buffers filled by the `memcpy` calls (the first `size` position
and sprite records, in entity-id order), and the returned entity count
`(int)s_Objects.m_Positions.size()`. -/
structure UpdateResult where
  state : GameState
  outPositions : List PositionComponent
  outSprites : List SpriteComponent
  ret : ℕ

/-- Embedding of `game_update` (game.cpp lines 304-316): one
`MoveSystem::UpdateSystem` pass, then one `AvoidanceSystem::UpdateSystem`
pass, then the output copies and the size return. -/
def game_update (R H : ℕ) (time deltaTime : ℚ) (s : GameState) : UpdateResult :=
  let s1 := MoveSystem.UpdateSystem R H time deltaTime s
  let s2 := AvoidanceSystem.UpdateSystem R H time deltaTime s1
  { state := s2
    outPositions := (List.range s2.size).map s2.positions
    outSprites := (List.range s2.size).map s2.sprites
    ret := s2.size }

/-- A sequence of `MoveSystem::UpdateSystem` calls, one per (time,
deltaTime) pair. -/
def motionRun (R H : ℕ) (frames : List (ℚ × ℚ)) (s : GameState) : GameState :=
  frames.foldl (fun st td => MoveSystem.UpdateSystem R H td.1 td.2 st) s

/-- A sequence of `game_update` calls, one per (time, deltaTime) pair,
returning the final store state. -/
def updateRun (R H : ℕ) (frames : List (ℚ × ℚ)) (s : GameState) : GameState :=
  frames.foldl (fun st td => (game_update R H td.1 td.2 st).state) s

/-- A sequence of `game_update` calls, one per (time, deltaTime) pair,
collecting every call's observable output: the position buffer, the
sprite buffer and the returned count. -/
def updateTrace (R H : ℕ) (frames : List (ℚ × ℚ)) (s : GameState) :
    List (List PositionComponent × List SpriteComponent × ℕ) :=
  match frames with
  | [] => []
  | td :: rest =>
    let r := game_update R H td.1 td.2 s
    (r.outPositions, r.outSprites, r.ret) :: updateTrace R H rest r.state

/-- Predicate: a position lies within the world bounds rectangle. -/
def inBounds (p : PositionComponent) : Prop :=
  (Entities.s_WorldBounds.xMin : ℚ) ≤ p.x ∧ p.x ≤ (Entities.s_WorldBounds.xMax : ℚ) ∧
  (Entities.s_WorldBounds.yMin : ℚ) ≤ p.y ∧ p.y ≤ (Entities.s_WorldBounds.yMax : ℚ)

instance (p : PositionComponent) : Decidable (inBounds p) := by
  unfold inBounds; infer_instance

/-- Squared Euclidean distance between two positions. -/
def distSq (a b : PositionComponent) : ℚ :=
  (a.x - b.x) * (a.x - b.x) + (a.y - b.y) * (a.y - b.y)

/-!
Helper lemmas about the numeric conversions.
-/

lemma ratTrunc_of_nonneg {q : ℚ} (h : 0 ≤ q) : ratTrunc q = ⌊q⌋ := by
  unfold ratTrunc
  rw [if_neg (not_lt.mpr h)]

lemma xMinQ : ((Entities.s_WorldBounds.xMin : ℤ) : ℚ) = -128 := by
  norm_num [Entities.s_WorldBounds]

lemma xMaxQ : ((Entities.s_WorldBounds.xMax : ℤ) : ℚ) = 128 := by
  norm_num [Entities.s_WorldBounds]

lemma yMinQ : ((Entities.s_WorldBounds.yMin : ℤ) : ℚ) = -64 := by
  norm_num [Entities.s_WorldBounds]

lemma yMaxQ : ((Entities.s_WorldBounds.yMax : ℤ) : ℚ) = 64 := by
  norm_num [Entities.s_WorldBounds]

lemma kGridCellSize0_eq : kGridCellSize0 = 4 := by decide

lemma kGridCellSize1_eq : kGridCellSize1 = 2 := by decide

lemma inBounds_iff {p : PositionComponent} :
    inBounds p ↔ (-128 : ℚ) ≤ p.x ∧ p.x ≤ 128 ∧ (-64 : ℚ) ≤ p.y ∧ p.y ≤ 64 := by
  unfold inBounds
  rw [xMinQ, xMaxQ, yMinQ, yMaxQ]

lemma cppToUInt_le {q : ℚ} {n : ℕ} (h0 : 0 ≤ q) (h2 : q < n + 1) (h3 : n < 2 ^ 32) :
    cppToUInt q ≤ n := by
  have hf0 : (0 : ℤ) ≤ ⌊q⌋ := Int.floor_nonneg.mpr h0
  have hfn : ⌊q⌋ ≤ (n : ℤ) := by
    have : ⌊q⌋ < (n : ℤ) + 1 := Int.floor_lt.mpr (by push_cast; exact h2)
    omega
  unfold cppToUInt
  rw [ratTrunc_of_nonneg h0, Int.emod_eq_of_lt hf0 (by omega)]
  omega

lemma cppToUInt_eval {q : ℚ} {n : ℕ} (h1 : (n : ℚ) ≤ q) (h2 : q < n + 1) (h3 : n < 2 ^ 32) :
    cppToUInt q = n := by
  have h0 : 0 ≤ q := le_trans (by positivity) h1
  have hf : ⌊q⌋ = (n : ℤ) := by
    rw [Int.floor_eq_iff]
    constructor
    · push_cast; exact h1
    · push_cast; exact h2
  unfold cppToUInt
  rw [ratTrunc_of_nonneg h0, hf, Int.emod_eq_of_lt (by omega) (by omega)]
  omega

lemma cppToUInt_zero {q : ℚ} (h1 : (-1 : ℚ) < q) (h2 : q < 1) : cppToUInt q = 0 := by
  rcases lt_or_le q 0 with h | h
  · have hf : ⌊-q⌋ = 0 := by
      rw [Int.floor_eq_iff] <;> push_cast <;> constructor <;> linarith
    unfold cppToUInt ratTrunc
    rw [if_pos h, hf]
    decide
  · exact cppToUInt_eval (by exact_mod_cast h) (by push_cast; linarith) (by norm_num)

lemma cppToUInt_neg {q : ℚ} (h1 : (-2 : ℚ) < q) (h2 : q ≤ -1) : cppToUInt q = 2 ^ 32 - 1 := by
  have hf : ⌊-q⌋ = 1 := by
    rw [Int.floor_eq_iff] <;> push_cast <;> constructor <;> linarith
  unfold cppToUInt ratTrunc
  rw [if_pos (by linarith), hf]
  decide

lemma wrapCell_le_63 : ∀ n ≤ 64, wrapCell n ≤ 63 := by decide

lemma wrapCell_id : ∀ n ≤ 63, wrapCell n = n := by decide

set_option maxRecDepth 4000 in
lemma cellHash_eq_add : ∀ x < 64, ∀ y < 64, cellHash x y = 64 * x + y := by decide

set_option maxRecDepth 8000 in
lemma cellHash_lt_4096 : ∀ x < 64, ∀ y < 128, cellHash x y < 4096 := by decide

/-!
Bounds on the grid cell coordinates computed by the build pass and the
query pass, for positions inside the world bounds.
-/

lemma hazardTopRight0_le {p : PositionComponent} (h : inBounds p) : hazardTopRight0 p ≤ 63 := by
  obtain ⟨hx1, hx2, _, _⟩ := inBounds_iff.mp h
  have hc : cppToUInt (p.x + kAvoidDistance - ((Entities.s_WorldBounds.xMin : ℤ) : ℚ)) ≤ 257 := by
    apply cppToUInt_le
    · rw [xMinQ]; unfold kAvoidDistance; linarith
    · rw [xMinQ]; unfold kAvoidDistance; push_cast; linarith
    · norm_num
  unfold hazardTopRight0
  apply wrapCell_le_63
  rw [kGridCellSize0_eq]
  omega

lemma hazardTopRight1_le {p : PositionComponent} (h : inBounds p) : hazardTopRight1 p ≤ 63 := by
  obtain ⟨_, _, hy1, hy2⟩ := inBounds_iff.mp h
  have hc : cppToUInt (p.y + kAvoidDistance - ((Entities.s_WorldBounds.yMin : ℤ) : ℚ)) ≤ 129 := by
    apply cppToUInt_le
    · rw [yMinQ]; unfold kAvoidDistance; linarith
    · rw [yMinQ]; unfold kAvoidDistance; push_cast; linarith
    · norm_num
  unfold hazardTopRight1
  apply wrapCell_le_63
  rw [kGridCellSize1_eq]
  omega

/-!
Structure lemmas about the grid build.
-/

lemma mem_range_between {bl tr x : ℕ} (h : x ∈ List.range' bl (tr + 1 - bl)) :
    bl ≤ x ∧ x ≤ tr := by
  obtain ⟨i, hi, rfl⟩ := List.mem_range'.mp h
  omega

lemma hazardCells_mem {p : PositionComponent} {c : ℕ} (hc : c ∈ hazardCells p) :
    ∃ x y, x ≤ hazardTopRight0 p ∧ y ≤ hazardTopRight1 p ∧ c = cellHash x y := by
  unfold hazardCells at hc
  simp only [List.mem_flatMap, List.mem_map] at hc
  obtain ⟨y, hy, x, hx, rfl⟩ := hc
  exact ⟨x, y, (mem_range_between hx).2, (mem_range_between hy).2, rfl⟩

lemma hazardCells_lt_4096 {p : PositionComponent} (h : inBounds p) {c : ℕ}
    (hc : c ∈ hazardCells p) : c < 4096 := by
  obtain ⟨x, y, hx, hy, rfl⟩ := hazardCells_mem hc
  have h0 := hazardTopRight0_le h
  have h1 := hazardTopRight1_le h
  exact cellHash_lt_4096 x (by omega) y (by omega)

lemma hazardCells_nodup {p : PositionComponent} (h : inBounds p) : (hazardCells p).Nodup := by
  have htr0 := hazardTopRight0_le h
  have htr1 := hazardTopRight1_le h
  unfold hazardCells
  rw [List.nodup_flatMap]
  constructor
  · intro y hy
    have hyb := mem_range_between hy
    apply List.Nodup.map_on
    · intro x hx x' hx' hEq
      have hxb := mem_range_between hx
      have hx'b := mem_range_between hx'
      rw [cellHash_eq_add x (by omega) y (by omega),
        cellHash_eq_add x' (by omega) y (by omega)] at hEq
      omega
    · exact List.nodup_range' _ _
  · refine List.Pairwise.imp_of_mem ?_ (List.nodup_range' _ _)
    intro y y' hy hy' hne c hc hc'
    simp only [List.mem_map] at hc hc'
    obtain ⟨x, hx, rfl⟩ := hc
    obtain ⟨x', hx', hEq⟩ := hc'
    have hyb := mem_range_between hy
    have hy'b := mem_range_between hy'
    have hxb := mem_range_between hx
    have hx'b := mem_range_between hx'
    rw [cellHash_eq_add x' (by omega) y' (by omega),
      cellHash_eq_add x (by omega) y (by omega)] at hEq
    exact hne (by omega)

lemma gridInsert_length (g : ℕ → List ℕ) (ia c h : ℕ) :
    ((gridInsert g ia c) h).length = (g h).length + if h = c then 1 else 0 := by
  unfold gridInsert
  split_ifs <;> simp

lemma foldl_gridInsert_length (cells : List ℕ) :
    ∀ (g : ℕ → List ℕ) (ia h : ℕ),
      ((cells.foldl (fun g c => gridInsert g ia c) g) h).length
        = (g h).length + cells.count h := by
  induction cells with
  | nil => simp
  | cons c cs ih =>
    intro g ia h
    simp only [List.foldl_cons, ih, gridInsert_length, List.count_cons, beq_iff_eq]
    by_cases hc : h = c
    · simp [hc]; omega
    · simp only [if_neg hc, if_neg fun hx : c = h => hc hx.symm]
      omega

lemma insertHazard_length (g : ℕ → List ℕ) (ia : ℕ) (p : PositionComponent) (h : ℕ) :
    ((insertHazard g ia p) h).length = (g h).length + (hazardCells p).count h :=
  foldl_gridInsert_length (hazardCells p) g ia h

lemma buildGrid_succ (R H : ℕ) (pos : ℕ → PositionComponent) :
    buildGrid R (H + 1) pos = insertHazard (buildGrid R H pos) (R + H) (pos (R + H)) := by
  unfold buildGrid
  rw [List.range_succ, List.foldl_append]
  rfl

lemma buildGrid_length_le {R H : ℕ} {pos : ℕ → PositionComponent}
    (hnd : ∀ k < H, (hazardCells (pos (R + k))).Nodup) (h : ℕ) :
    ((buildGrid R H pos) h).length ≤ H := by
  induction H with
  | zero => simp [buildGrid]
  | succ n ih =>
    rw [buildGrid_succ, insertHazard_length]
    have h1 : ((buildGrid R n pos) h).length ≤ n := ih fun k hk => hnd k (by omega)
    have h2 : (hazardCells (pos (R + n))).count h ≤ 1 :=
      List.nodup_iff_count_le_one.mp (hnd n (by omega)) h
    omega

lemma gridInsert_mem {g : ℕ → List ℕ} {ia c h e : ℕ} (hm : e ∈ (gridInsert g ia c) h) :
    e ∈ g h ∨ e = ia := by
  unfold gridInsert at hm
  split_ifs at hm
  · rcases List.mem_append.mp hm with h1 | h1
    · exact Or.inl h1
    · exact Or.inr (List.mem_singleton.mp h1)
  · exact Or.inl hm

lemma foldl_gridInsert_mem (cells : List ℕ) :
    ∀ {g : ℕ → List ℕ} {ia h e : ℕ},
      e ∈ (cells.foldl (fun g c => gridInsert g ia c) g) h → e ∈ g h ∨ e = ia := by
  induction cells with
  | nil => intro g ia h e hm; exact Or.inl hm
  | cons c cs ih =>
    intro g ia h e hm
    rcases ih hm with h1 | h1
    · exact gridInsert_mem h1
    · exact Or.inr h1

lemma insertHazard_mem {g : ℕ → List ℕ} {ia : ℕ} {p : PositionComponent} {h e : ℕ}
    (hm : e ∈ (insertHazard g ia p) h) : e ∈ g h ∨ e = ia :=
  foldl_gridInsert_mem (hazardCells p) hm

lemma buildGrid_mem {R H : ℕ} {pos : ℕ → PositionComponent} {h e : ℕ}
    (hm : e ∈ (buildGrid R H pos) h) : ∃ k < H, e = R + k := by
  induction H with
  | zero => simp [buildGrid] at hm
  | succ n ih =>
    rw [buildGrid_succ] at hm
    rcases insertHazard_mem hm with h1 | h1
    · obtain ⟨k, hk, rfl⟩ := ih h1
      exact ⟨k, by omega, rfl⟩
    · exact ⟨n, by omega, h1⟩

/-!
Lemmas about the motion pass.
-/

lemma reflectAxis_bounds (lo hi v p : ℚ) (h : lo ≤ hi) :
    lo ≤ (reflectAxis lo hi v p).2 ∧ (reflectAxis lo hi v p).2 ≤ hi := by
  simp only [reflectAxis]
  split_ifs <;> constructor <;> linarith

lemma reflectAxis_above {lo hi p : ℚ} (v : ℚ) (h1 : lo ≤ hi) (h2 : hi < p) :
    reflectAxis lo hi v p = (-v, hi) := by
  have hnl : ¬p < lo := by linarith
  simp only [reflectAxis, if_neg hnl, gt_iff_lt, if_pos h2]

lemma xMinQ_le_xMaxQ :
    ((Entities.s_WorldBounds.xMin : ℤ) : ℚ) ≤ ((Entities.s_WorldBounds.xMax : ℤ) : ℚ) := by
  rw [xMinQ, xMaxQ]; norm_num

lemma yMinQ_le_yMaxQ :
    ((Entities.s_WorldBounds.yMin : ℤ) : ℚ) ≤ ((Entities.s_WorldBounds.yMax : ℤ) : ℚ) := by
  rw [yMinQ, yMaxQ]; norm_num

lemma moveStep_inBounds (dt : ℚ) (p : PositionComponent) (m : MoveComponent) :
    inBounds (moveStep dt p m).1 := by
  simp only [moveStep, inBounds]
  exact ⟨(reflectAxis_bounds _ _ _ _ xMinQ_le_xMaxQ).1,
    (reflectAxis_bounds _ _ _ _ xMinQ_le_xMaxQ).2,
    (reflectAxis_bounds _ _ _ _ yMinQ_le_yMaxQ).1,
    (reflectAxis_bounds _ _ _ _ yMinQ_le_yMaxQ).2⟩

/-!
Lemmas about the avoidance bucket scan.
-/

lemma avoidStep_of_not_react {dt : ℚ} {ap : PositionComponent} {asp : SpriteComponent}
    {acc : PositionComponent × MoveComponent × SpriteComponent}
    (h : avoidReactCond (ap.x - acc.1.x) (ap.y - acc.1.y) = false) :
    avoidStep dt ap asp acc = acc := by
  simp [avoidStep, h]

lemma avoid_foldl_of_far {dt : ℚ} {posf : ℕ → PositionComponent} {spf : ℕ → SpriteComponent}
    (l : List ℕ) (init : PositionComponent × MoveComponent × SpriteComponent)
    (h : ∀ ia ∈ l, avoidReactCond ((posf ia).x - init.1.x) ((posf ia).y - init.1.y) = false) :
    l.foldl (fun acc ia => avoidStep dt (posf ia) (spf ia) acc) init = init := by
  induction l with
  | nil => rfl
  | cons a as ih =>
    simp only [List.foldl_cons]
    rw [avoidStep_of_not_react (h a (List.mem_cons_self a as))]
    exact ih fun ia hia => h ia (List.mem_cons_of_mem _ hia)

lemma avoidStep_spriteIndex (dt : ℚ) (ap : PositionComponent) (asp : SpriteComponent)
    (acc : PositionComponent × MoveComponent × SpriteComponent) :
    ((avoidStep dt ap asp acc).2.2).spriteIndex = acc.2.2.spriteIndex := by
  simp only [avoidStep]
  split_ifs <;> rfl

lemma avoid_foldl_spriteIndex (dt : ℚ) (posf : ℕ → PositionComponent)
    (spf : ℕ → SpriteComponent) (l : List ℕ) :
    ∀ init : PositionComponent × MoveComponent × SpriteComponent,
      ((l.foldl (fun acc ia => avoidStep dt (posf ia) (spf ia) acc) init).2.2).spriteIndex
        = init.2.2.spriteIndex := by
  induction l with
  | nil => intro init; rfl
  | cons a as ih =>
    intro init
    simp only [List.foldl_cons]
    rw [ih, avoidStep_spriteIndex]

lemma queryHash_eq_wrap (p : PositionComponent) :
    queryHash p = cellHash
      (wrapCell (cppToUInt (p.y - ((Entities.s_WorldBounds.yMin : ℤ) : ℚ)) / kGridCellSize1))
      (cppToUInt (p.y - ((Entities.s_WorldBounds.yMin : ℤ) : ℚ)) / kGridCellSize1) := rfl

lemma queryHash_lt_4096 {p : PositionComponent} (h : inBounds p) : queryHash p < 4096 := by
  obtain ⟨_, _, hy1, hy2⟩ := inBounds_iff.mp h
  have hc : cppToUInt (p.y - ((Entities.s_WorldBounds.yMin : ℤ) : ℚ)) ≤ 128 := by
    apply cppToUInt_le
    · rw [yMinQ]; linarith
    · rw [yMinQ]; push_cast; linarith
    · norm_num
  rw [queryHash_eq_wrap, kGridCellSize1_eq]
  have hy : cppToUInt (p.y - ((Entities.s_WorldBounds.yMin : ℤ) : ℚ)) / 2 ≤ 64 := by omega
  have hw := wrapCell_le_63 _ hy
  exact cellHash_lt_4096 _ (by omega) _ (by omega)

/-!
Example states used to witness the hypotheses of the claim theorems.
-/

/-- Example store whose entities all sit at the origin with velocity (1, 1). -/
def exampleState : GameState :=
  ⟨fun _ => ⟨0, 0⟩, fun _ => ⟨255, 255, 255, 0⟩, fun _ => ⟨1, 1⟩, kObjectCount + kAvoidCount⟩

/-- Example store whose entities all sit exactly on the right world bound,
moving right. -/
def exampleStateAtMax : GameState :=
  ⟨fun _ => ⟨128, 0⟩, fun _ => ⟨255, 255, 255, 0⟩, fun _ => ⟨1, 0⟩, kObjectCount + kAvoidCount⟩

/-- Specification-side containing-cell computation.  Modelled from the
spec: the claim about the query-side asymmetry compares the code's
`queryHash` against the cell actually containing the entity, which the
spec describes as \x22floor division + the same boundary-wrap correction\x22
computed independently per axis, exactly as the build side does for
hazards. -/
def entityCellHashSpec (p : PositionComponent) : ℕ :=
  let x := wrapCell (cppToUInt (p.x - (Entities.s_WorldBounds.xMin : ℚ)) / kGridCellSize0)
  let y := wrapCell (cppToUInt (p.y - (Entities.s_WorldBounds.yMin : ℚ)) / kGridCellSize1)
  cellHash x y

/-- C1: in the Avoidance System query, the wrap-corrected y cell
coordinate is assigned into the variable used as the x grid coordinate,
so the queried cell index depends on the entity's y position alone
(first conjunct: changing x never changes the queried cell), and it is
not reliably the cell containing the entity (second conjunct: the
in-bounds position (100, 0) is queried at a cell different from the one
that contains it). -/
theorem queryHash_from_y_alone :
    (∀ px px' py : ℚ, queryHash ⟨px, py⟩ = queryHash ⟨px', py⟩) ∧
    inBounds ⟨100, 0⟩ ∧ queryHash ⟨100, 0⟩ ≠ entityCellHashSpec ⟨100, 0⟩ := by
  refine ⟨fun px px' py => rfl, by decide, ?_⟩
  have hy : cppToUInt ((0 : ℚ) - ((Entities.s_WorldBounds.yMin : ℤ) : ℚ)) = 64 := by
    apply cppToUInt_eval
    · rw [yMinQ]; norm_num
    · rw [yMinQ]; norm_num
    · norm_num
  have hx : cppToUInt ((100 : ℚ) - ((Entities.s_WorldBounds.xMin : ℤ) : ℚ)) = 228 := by
    apply cppToUInt_eval
    · rw [xMinQ]; norm_num
    · rw [xMinQ]; norm_num
    · norm_num
  have h1 : queryHash ⟨100, 0⟩ = 2080 := by
    simp only [queryHash, hy, kGridCellSize1_eq]
    decide
  have h2 : entityCellHashSpec ⟨100, 0⟩ = 3680 := by
    simp only [entityCellHashSpec, hx, hy, kGridCellSize0_eq, kGridCellSize1_eq]
    decide
  rw [h1, h2]
  decide

/-- C2: after any Motion System call (preceded by an arbitrary history of
Motion System calls with arbitrary time and deltaTime values), every
entity position lies inside the world bounds x in [-128, 128] and y in
[-64, 64]; `inBounds` is by definition that rectangle taken from
`Entities.s_WorldBounds`. -/
theorem motion_bounds_invariant (s : GameState) (frames : List (ℚ × ℚ)) (time deltaTime : ℚ)
    (io : ℕ) (hio : io < kObjectCount + kAvoidCount) :
    inBounds ((MoveSystem.UpdateSystem kObjectCount kAvoidCount time deltaTime
      (motionRun kObjectCount kAvoidCount frames s)).positions io) := by
  simp only [MoveSystem.UpdateSystem, if_pos hio]
  exact moveStep_inBounds _ _ _

/-- Witness for C2 at a concrete store, history and entity. -/
theorem motion_bounds_invariant_witness :
    inBounds ((MoveSystem.UpdateSystem kObjectCount kAvoidCount 0 1
      (motionRun kObjectCount kAvoidCount [] exampleState)).positions 0) :=
  motion_bounds_invariant exampleState [] 0 1 0 (by decide)

/-- C5: every `game_update` call, after any number of previous calls on a
store whose arrays were sized to the full population, returns exactly
kObjectCount + kAvoidCount = 1000020. -/
theorem update_returns_population (s : GameState)
    (hsize : s.size = kObjectCount + kAvoidCount)
    (frames : List (ℚ × ℚ)) (time deltaTime : ℚ) :
    (game_update kObjectCount kAvoidCount time deltaTime
      (updateRun kObjectCount kAvoidCount frames s)).ret = 1000020 := by
  have hrun : ∀ (fr : List (ℚ × ℚ)) (st : GameState),
      (updateRun kObjectCount kAvoidCount fr st).size = st.size := by
    intro fr
    induction fr with
    | nil => intro st; rfl
    | cons f fs ih =>
      intro st
      exact ih ((game_update kObjectCount kAvoidCount f.1 f.2 st).state)
  show (updateRun kObjectCount kAvoidCount frames s).size = 1000020
  rw [hrun frames s, hsize]
  decide

/-- Witness for C5 at a concrete store. -/
theorem update_returns_population_witness :
    (game_update kObjectCount kAvoidCount 0 1
      (updateRun kObjectCount kAvoidCount [] exampleState)).ret = 1000020 :=
  update_returns_population exampleState rfl [] 0 1

/-- C6: an entity exactly at x = xMax = 128 with positive x velocity,
stepped by one Motion System call with positive deltaTime, ends the call
with negative x velocity and position.x still equal to 128. -/
theorem reflect_at_xMax (s : GameState) (time deltaTime : ℚ) (io : ℕ)
    (hio : io < kObjectCount + kAvoidCount)
    (hpx : (s.positions io).x = 128)
    (hv : 0 < (s.moves io).velx) (hdt : 0 < deltaTime) :
    ((MoveSystem.UpdateSystem kObjectCount kAvoidCount time deltaTime s).moves io).velx < 0 ∧
    ((MoveSystem.UpdateSystem kObjectCount kAvoidCount time deltaTime s).positions io).x
      = 128 := by
  have h2 : ((Entities.s_WorldBounds.xMax : ℤ) : ℚ)
      < (s.positions io).x + (s.moves io).velx * deltaTime := by
    rw [xMaxQ, hpx]
    nlinarith
  have hra := reflectAxis_above ((s.moves io).velx) xMinQ_le_xMaxQ h2
  simp only [MoveSystem.UpdateSystem, if_pos hio, moveStep, hra]
  exact ⟨by linarith, xMaxQ⟩

/-- Witness for C6 at a concrete store. -/
theorem reflect_at_xMax_witness :
    ((MoveSystem.UpdateSystem kObjectCount kAvoidCount 0 1 exampleStateAtMax).moves 0).velx < 0 ∧
    ((MoveSystem.UpdateSystem kObjectCount kAvoidCount 0 1 exampleStateAtMax).positions 0).x
      = 128 :=
  reflect_at_xMax exampleStateAtMax 0 1 0 (by decide) rfl (by decide) (by decide)

/-- C8: the per-frame update is deterministic.  Two runs from the same
component-store state whose frames carry the same deltaTime values (the
time argument may even differ, it is unused) produce the same output
position buffer, sprite buffer and return value at every step. -/
theorem update_deterministic (s : GameState) (frames1 frames2 : List (ℚ × ℚ))
    (h : frames1.map Prod.snd = frames2.map Prod.snd) :
    updateTrace kObjectCount kAvoidCount frames1 s
      = updateTrace kObjectCount kAvoidCount frames2 s := by
  induction frames1 generalizing frames2 s with
  | nil =>
    cases frames2 with
    | nil => rfl
    | cons b bs => simp at h
  | cons a as ih =>
    cases frames2 with
    | nil => simp at h
    | cons b bs =>
      simp only [List.map_cons, List.cons.injEq] at h
      obtain ⟨hdt, hrest⟩ := h
      have hstep : game_update kObjectCount kAvoidCount a.1 a.2 s
          = game_update kObjectCount kAvoidCount b.1 b.2 s := by
        rw [hdt]
        rfl
      simp only [updateTrace]
      rw [hstep, ih _ bs hrest]

/-- Witness for C8: two frame lists with different time stamps but equal
deltaTime values. -/
theorem update_deterministic_witness :
    updateTrace kObjectCount kAvoidCount [((0 : ℚ), (1 : ℚ))] exampleState
      = updateTrace kObjectCount kAvoidCount [((5 : ℚ), (1 : ℚ))] exampleState :=
  update_deterministic exampleState [((0 : ℚ), (1 : ℚ))] [((5 : ℚ), (1 : ℚ))] rfl

/-- C9: no `game_update` call changes any entity's sprite visual-variant
index: the Motion System touches no sprite data and the avoidance
reaction copies only the three color channels. -/
theorem spriteIndex_never_changes (s : GameState) (time deltaTime : ℚ) (io : ℕ) :
    (((game_update kObjectCount kAvoidCount time deltaTime s).state).sprites io).spriteIndex
      = (s.sprites io).spriteIndex := by
  by_cases hio : io < kObjectCount
  · simp only [game_update, AvoidanceSystem.UpdateSystem, MoveSystem.UpdateSystem,
      if_pos hio, avoidEntity]
    exact avoid_foldl_spriteIndex _ _ _ _ _
  · simp only [game_update, AvoidanceSystem.UpdateSystem, MoveSystem.UpdateSystem,
      if_neg hio]

/-- C4: after a grid rebuild from hazard positions inside the world
bounds, each hazard's footprint rectangle enumerates pairwise-distinct
cells, so each hazard is appended at most once per cell (first
conjunct), and every cell's occupancy count is at most the total hazard
count kAvoidCount = 20 (second conjunct). -/
theorem grid_occupancy_le (pos : ℕ → PositionComponent)
    (hb : ∀ k < kAvoidCount, inBounds (pos (kObjectCount + k))) :
    (∀ k < kAvoidCount, (hazardCells (pos (kObjectCount + k))).Nodup) ∧
    ∀ h, ((buildGrid kObjectCount kAvoidCount pos) h).length ≤ kAvoidCount :=
  ⟨fun k hk => hazardCells_nodup (hb k hk),
   fun h => buildGrid_length_le (fun k hk => hazardCells_nodup (hb k hk)) h⟩

/-- Witness for C4 at a concrete hazard layout. -/
theorem grid_occupancy_le_witness :
    ((buildGrid kObjectCount kAvoidCount exampleState.positions) 2080).length ≤ kAvoidCount :=
  (grid_occupancy_le exampleState.positions fun k hk =>
    (by decide : inBounds (⟨0, 0⟩ : PositionComponent))).2 2080

/-- C10: with every entity position inside the world bounds when the
Avoidance System runs, all grid indices are in bounds: every build-side
cell hash is below 64 * 64 = 4096, every query-side cell hash is below
4096, the bucket slot written when hazard number k is appended (the
occupancy of the grid built from the first k hazards) is below the
bucket capacity kAvoidCount = 20, and every final occupancy counter that
bounds the query-side slot reads is at most kAvoidCount. -/
theorem grid_indices_in_bounds (pos : ℕ → PositionComponent)
    (hb : ∀ i < kObjectCount + kAvoidCount, inBounds (pos i)) :
    (∀ k < kAvoidCount, ∀ c ∈ hazardCells (pos (kObjectCount + k)), c < 4096) ∧
    (∀ io < kObjectCount, queryHash (pos io) < 4096) ∧
    (∀ k < kAvoidCount, ∀ c : ℕ, ((buildGrid kObjectCount k pos) c).length < kAvoidCount) ∧
    (∀ c : ℕ, ((buildGrid kObjectCount kAvoidCount pos) c).length ≤ kAvoidCount) := by
  have hbh : ∀ k < kAvoidCount, inBounds (pos (kObjectCount + k)) :=
    fun k hk => hb (kObjectCount + k) (Nat.add_lt_add_left hk kObjectCount)
  refine ⟨?_, ?_, ?_, ?_⟩
  · exact fun k hk c hc => hazardCells_lt_4096 (hbh k hk) hc
  · exact fun io hio =>
      queryHash_lt_4096 (hb io (lt_of_lt_of_le hio (Nat.le_add_right _ _)))
  · intro k hk c
    have hlen : ((buildGrid kObjectCount k pos) c).length ≤ k :=
      buildGrid_length_le (fun j hj => hazardCells_nodup (hbh j (lt_trans hj hk))) c
    omega
  · exact fun c => buildGrid_length_le (fun j hj => hazardCells_nodup (hbh j hj)) c

/-- Witness for C10 at a concrete in-bounds layout. -/
theorem grid_indices_in_bounds_witness :
    queryHash (exampleState.positions 0) < 4096 ∧
    ((buildGrid kObjectCount 0 exampleState.positions) 0).length < kAvoidCount :=
  ⟨(grid_indices_in_bounds exampleState.positions fun i _ =>
      (by decide : inBounds (⟨0, 0⟩ : PositionComponent))).2.1 0 (by decide),
   (grid_indices_in_bounds exampleState.positions fun i _ =>
      (by decide : inBounds (⟨0, 0⟩ : PositionComponent))).2.2.1 0 (by decide) 0⟩

lemma moveStep_zero {p : PositionComponent} (m : MoveComponent) (hp : inBounds p) :
    moveStep 0 p m = (p, m) := by
  obtain ⟨h1, h2, h3, h4⟩ := hp
  simp only [moveStep, reflectAxis, mul_zero, add_zero, gt_iff_lt]
  rw [if_neg (not_lt.mpr h1), if_neg (not_lt.mpr h1), if_neg (not_lt.mpr h2),
    if_neg (not_lt.mpr h2), if_neg (not_lt.mpr h3), if_neg (not_lt.mpr h3),
    if_neg (not_lt.mpr h4), if_neg (not_lt.mpr h4)]

/-- C7: a regular entity that, at the moment the Avoidance System tests
it (that is, after the Motion System pass of the same `game_update`
call), is strictly farther than the avoidance distance from every
hazard, is left untouched by the avoidance pass: its position and
velocity are exactly the Motion System results and its sprite is
unchanged from before the call. -/
theorem no_false_reaction (s : GameState) (time deltaTime : ℚ) (io : ℕ)
    (hio : io < kObjectCount)
    (hfar : ∀ k < kAvoidCount,
      kAvoidDistance * kAvoidDistance <
        distSq ((MoveSystem.UpdateSystem kObjectCount kAvoidCount time deltaTime s).positions io)
          ((MoveSystem.UpdateSystem kObjectCount kAvoidCount time deltaTime s).positions
            (kObjectCount + k))) :
    (game_update kObjectCount kAvoidCount time deltaTime s).state.positions io
        = (MoveSystem.UpdateSystem kObjectCount kAvoidCount time deltaTime s).positions io ∧
    (game_update kObjectCount kAvoidCount time deltaTime s).state.moves io
        = (MoveSystem.UpdateSystem kObjectCount kAvoidCount time deltaTime s).moves io ∧
    (game_update kObjectCount kAvoidCount time deltaTime s).state.sprites io
        = s.sprites io := by
  simp only [game_update, AvoidanceSystem.UpdateSystem, if_pos hio, avoidEntity]
  rw [avoid_foldl_of_far]
  · exact ⟨rfl, rfl, rfl⟩
  · intro ia hia
    obtain ⟨k, hk, rfl⟩ := buildGrid_mem hia
    have hd := hfar k hk
    simp only [avoidReactCond, decide_eq_false_iff_not, not_lt]
    have key :
        distSq ((MoveSystem.UpdateSystem kObjectCount kAvoidCount time deltaTime s).positions io)
          ((MoveSystem.UpdateSystem kObjectCount kAvoidCount time deltaTime s).positions
            (kObjectCount + k))
        = (((MoveSystem.UpdateSystem kObjectCount kAvoidCount time deltaTime s).positions
              (kObjectCount + k)).x
            - ((MoveSystem.UpdateSystem kObjectCount kAvoidCount time deltaTime s).positions
                io).x)
          * (((MoveSystem.UpdateSystem kObjectCount kAvoidCount time deltaTime s).positions
              (kObjectCount + k)).x
            - ((MoveSystem.UpdateSystem kObjectCount kAvoidCount time deltaTime s).positions
                io).x)
          + (((MoveSystem.UpdateSystem kObjectCount kAvoidCount time deltaTime s).positions
              (kObjectCount + k)).y
            - ((MoveSystem.UpdateSystem kObjectCount kAvoidCount time deltaTime s).positions
                io).y)
          * (((MoveSystem.UpdateSystem kObjectCount kAvoidCount time deltaTime s).positions
              (kObjectCount + k)).y
            - ((MoveSystem.UpdateSystem kObjectCount kAvoidCount time deltaTime s).positions
                io).y) := by
      unfold distSq
      ring
    linarith [key ▸ hd]

/-- Example store with all regular entities far from all hazards and no
motion. -/
def farState : GameState :=
  ⟨fun i => if i < kObjectCount then ⟨100, 50⟩ else ⟨0, 0⟩,
   fun _ => ⟨255, 255, 255, 0⟩, fun _ => ⟨0, 0⟩, kObjectCount + kAvoidCount⟩

/-- Witness for C7 at a concrete store with entity 0 far from every
hazard. -/
theorem no_false_reaction_witness :
    (game_update kObjectCount kAvoidCount 0 0 farState).state.positions 0
        = (MoveSystem.UpdateSystem kObjectCount kAvoidCount 0 0 farState).positions 0 ∧
    (game_update kObjectCount kAvoidCount 0 0 farState).state.moves 0
        = (MoveSystem.UpdateSystem kObjectCount kAvoidCount 0 0 farState).moves 0 ∧
    (game_update kObjectCount kAvoidCount 0 0 farState).state.sprites 0
        = farState.sprites 0 := by
  apply no_false_reaction farState 0 0 0 (by decide)
  intro k hk
  have eA : (MoveSystem.UpdateSystem kObjectCount kAvoidCount 0 0 farState).positions 0
      = ⟨100, 50⟩ := by
    simp only [MoveSystem.UpdateSystem]
    rw [if_pos (show (0 : ℕ) < kObjectCount + kAvoidCount by decide),
      show farState.positions 0 = ⟨100, 50⟩ from by decide,
      show farState.moves 0 = ⟨0, 0⟩ from rfl, moveStep_zero _ (by decide)]
  have eB : (MoveSystem.UpdateSystem kObjectCount kAvoidCount 0 0 farState).positions
      (kObjectCount + k) = ⟨0, 0⟩ := by
    simp only [MoveSystem.UpdateSystem]
    rw [if_pos (Nat.add_lt_add_left hk kObjectCount),
      show farState.positions (kObjectCount + k) = ⟨0, 0⟩ from
        if_neg (Nat.not_lt.mpr (Nat.le_add_right _ _)),
      show farState.moves (kObjectCount + k) = ⟨0, 0⟩ from rfl, moveStep_zero _ (by decide)]
  rw [eA, eB]
  norm_num [distSq, kAvoidDistance]

/-!
Concrete evaluations of the grid build and query at the positions used
by the proximity-reaction scenario.
-/

lemma cpp_y_zero : cppToUInt ((0 : ℚ) - ((Entities.s_WorldBounds.yMin : ℤ) : ℚ)) = 64 := by
  apply cppToUInt_eval
  · rw [yMinQ]; norm_num
  · rw [yMinQ]; norm_num
  · norm_num

lemma queryHash_y_zero (px : ℚ) : queryHash ⟨px, 0⟩ = 2080 := by
  simp only [queryHash, cpp_y_zero, kGridCellSize1_eq]
  decide

lemma hazardCells_origin : hazardCells (⟨0, 0⟩ : PositionComponent)
    = [2015, 2079, 2016, 2080] := by
  have c1 : cppToUInt ((0 : ℚ) + kAvoidDistance - ((Entities.s_WorldBounds.xMin : ℤ) : ℚ))
      = 129 := by
    apply cppToUInt_eval
    · rw [xMinQ]; unfold kAvoidDistance; norm_num
    · rw [xMinQ]; unfold kAvoidDistance; norm_num
    · norm_num
  have c2 : cppToUInt ((0 : ℚ) - kAvoidDistance - ((Entities.s_WorldBounds.xMin : ℤ) : ℚ))
      = 126 := by
    apply cppToUInt_eval
    · rw [xMinQ]; unfold kAvoidDistance; norm_num
    · rw [xMinQ]; unfold kAvoidDistance; norm_num
    · norm_num
  have c3 : cppToUInt ((0 : ℚ) + kAvoidDistance - ((Entities.s_WorldBounds.yMin : ℤ) : ℚ))
      = 65 := by
    apply cppToUInt_eval
    · rw [yMinQ]; unfold kAvoidDistance; norm_num
    · rw [yMinQ]; unfold kAvoidDistance; norm_num
    · norm_num
  have c4 : cppToUInt ((0 : ℚ) - kAvoidDistance - ((Entities.s_WorldBounds.yMin : ℤ) : ℚ))
      = 62 := by
    apply cppToUInt_eval
    · rw [yMinQ]; unfold kAvoidDistance; norm_num
    · rw [yMinQ]; unfold kAvoidDistance; norm_num
    · norm_num
  simp only [hazardCells, hazardTopRight0, hazardTopRight1, hazardBottomLeft0,
    hazardBottomLeft1, c1, c2, c3, c4, kGridCellSize0_eq, kGridCellSize1_eq]
  decide

lemma insertHazard_origin_at :
    insertHazard (fun _ => []) 1 (⟨0, 0⟩ : PositionComponent) 2080 = [1] := by
  unfold insertHazard
  rw [hazardCells_origin]
  decide

/-- C3: with a population of one regular entity at (1, 0) and one hazard
at (0, 0) colored (200, 100, 50), one `game_update` call (with
deltaTime 0, so the motion pass moves nothing and the pre-call velocity
is the one the avoidance pass flips) negates both velocity components of
the regular entity relative to its pre-call velocity and copies the
hazard color onto its sprite; and the reaction condition of the bucket
scan holds exactly when the squared Euclidean distance is strictly less
than the squared avoidance distance. -/
theorem proximity_reaction (s : GameState) (time : ℚ)
    (hp0 : s.positions 0 = ⟨1, 0⟩) (hp1 : s.positions 1 = ⟨0, 0⟩)
    (hcR : (s.sprites 1).colorR = 200) (hcG : (s.sprites 1).colorG = 100)
    (hcB : (s.sprites 1).colorB = 50) :
    (((game_update 1 1 time 0 s).state.moves 0).velx = -(s.moves 0).velx ∧
     ((game_update 1 1 time 0 s).state.moves 0).vely = -(s.moves 0).vely) ∧
    (((game_update 1 1 time 0 s).state.sprites 0).colorR = 200 ∧
     ((game_update 1 1 time 0 s).state.sprites 0).colorG = 100 ∧
     ((game_update 1 1 time 0 s).state.sprites 0).colorB = 50) ∧
    (∀ dx dy : ℚ, avoidReactCond dx dy = true ↔
      dx * dx + dy * dy < kAvoidDistance * kAvoidDistance) := by
  have e0 : (MoveSystem.UpdateSystem 1 1 time 0 s).positions 0 = ⟨1, 0⟩ := by
    simp only [MoveSystem.UpdateSystem]
    rw [if_pos (by norm_num : (0 : ℕ) < 1 + 1), hp0, moveStep_zero _ (by decide)]
  have em0 : (MoveSystem.UpdateSystem 1 1 time 0 s).moves 0 = s.moves 0 := by
    simp only [MoveSystem.UpdateSystem]
    rw [if_pos (by norm_num : (0 : ℕ) < 1 + 1), hp0, moveStep_zero _ (by decide)]
  have e1 : (MoveSystem.UpdateSystem 1 1 time 0 s).positions 1 = ⟨0, 0⟩ := by
    simp only [MoveSystem.UpdateSystem]
    rw [if_pos (by norm_num : (1 : ℕ) < 1 + 1), hp1, moveStep_zero _ (by decide)]
  have es : (MoveSystem.UpdateSystem 1 1 time 0 s).sprites = s.sprites := rfl
  have egrid : buildGrid 1 1 (MoveSystem.UpdateSystem 1 1 time 0 s).positions
      (queryHash (⟨1, 0⟩ : PositionComponent)) = [1] := by
    rw [queryHash_y_zero]
    show insertHazard (fun _ => []) 1
      ((MoveSystem.UpdateSystem 1 1 time 0 s).positions 1) 2080 = [1]
    rw [e1]
    exact insertHazard_origin_at
  have hcond : avoidReactCond ((0 : ℚ) - 1) ((0 : ℚ) - 0) = true := by
    simp only [avoidReactCond, decide_eq_true_eq]
    unfold kAvoidDistance
    norm_num
  refine ⟨?_, ?_, ?_⟩
  · simp only [game_update, AvoidanceSystem.UpdateSystem,
      if_pos (by norm_num : (0 : ℕ) < 1), avoidEntity, e0, e1, em0, es, egrid,
      List.foldl_cons, List.foldl_nil, avoidStep, hcond, if_true]
    exact ⟨trivial, trivial⟩
  · simp only [game_update, AvoidanceSystem.UpdateSystem,
      if_pos (by norm_num : (0 : ℕ) < 1), avoidEntity, e0, e1, em0, es, egrid,
      List.foldl_cons, List.foldl_nil, avoidStep, hcond, if_true]
    exact ⟨hcR, hcG, hcB⟩
  · intro dx dy
    simp only [avoidReactCond, decide_eq_true_eq]
    constructor
    · intro h; linarith
    · intro h; linarith

/-- Example store for the proximity-reaction scenario: entity 0 regular
at (1, 0), entity 1 a hazard at the origin with color (200, 100, 50). -/
def proximityState : GameState :=
  ⟨fun i => if i = 0 then ⟨1, 0⟩ else ⟨0, 0⟩,
   fun i => if i = 1 then ⟨200, 100, 50, 255⟩ else ⟨255, 255, 255, 5⟩,
   fun _ => ⟨1 / 2, 1 / 4⟩, 2⟩

/-- Witness for C3 at the concrete proximity store. -/
theorem proximity_reaction_witness :
    (((game_update 1 1 0 0 proximityState).state.moves 0).velx
        = -(proximityState.moves 0).velx ∧
     ((game_update 1 1 0 0 proximityState).state.moves 0).vely
        = -(proximityState.moves 0).vely) ∧
    (((game_update 1 1 0 0 proximityState).state.sprites 0).colorR = 200 ∧
     ((game_update 1 1 0 0 proximityState).state.sprites 0).colorG = 100 ∧
     ((game_update 1 1 0 0 proximityState).state.sprites 0).colorB = 50) ∧
    (∀ dx dy : ℚ, avoidReactCond dx dy = true ↔
      dx * dx + dy * dy < kAvoidDistance * kAvoidDistance) :=
  proximity_reaction proximityState 0 rfl rfl rfl rfl rfl

end DodPlayground
